import Mathlib

/-!
Shallow embedding of `src/updater.js` (openaq/openaq-csv-uploader): a script
that, per calendar day, queries measurement rows from a store, flattens them,
writes a CSV file, uploads it to S3 and deletes the local copy, driven by a
sequential per-day task list with a global watchdog timeout.

Timestamps are modelled as integers counting milliseconds since the Unix
epoch, on the UTC timeline (the script calls moment utc() before deriving
the day window, and deployment runs with a UTC clock).  JavaScript moment
objects are mutable; the scheduler model below threads that mutable value
explicitly, following the source statement by statement.
-/

namespace Updater

/-! ## Time arithmetic (moment utc mode, millisecond timestamps) -/

/-- Milliseconds in one day, the unit of moment add/subtract(1, day). -/
def msPerDay : Int := 86400000

/-- moment startOf(day) in utc mode: floor the timestamp to its UTC day. -/
def dayStart (t : Int) : Int := t / msPerDay * msPerDay

/-- moment endOf(day) in utc mode: last millisecond of the UTC day. -/
def dayEnd (t : Int) : Int := dayStart t + msPerDay - 1

/-- Gregorian civil date from a day count since 1970-01-01 (the standard
era-based algorithm; mirrors what moment format YYYY-MM-DD computes). -/
def civilFromDays (z0 : Int) : Int × Nat × Nat :=
  let z := z0 + 719468
  let era : Int := z / 146097
  let doe : Nat := (z - era * 146097).toNat
  let yoe : Nat := (doe - doe / 1460 + doe / 36524 - doe / 146096) / 365
  let doy : Nat := doe - (365 * yoe + yoe / 4 - yoe / 100)
  let mp : Nat := (5 * doy + 2) / 153
  let d : Nat := doy - (153 * mp + 2) / 5 + 1
  let m : Nat := if mp < 10 then mp + 3 else mp - 9
  (era * 400 + yoe + (if m ≤ 2 then 1 else 0), m, d)

/-- Day count since 1970-01-01 of a Gregorian civil date (inverse of
`civilFromDays` on valid dates). -/
def daysFromCivil (y0 : Int) (m d : Nat) : Int :=
  let y : Int := if m ≤ 2 then y0 - 1 else y0
  let era : Int := y / 400
  let yoe : Nat := (y - era * 400).toNat
  let doy : Nat := (153 * (if 2 < m then m - 3 else m + 9) + 2) / 5 + d - 1
  let doe : Nat := yoe * 365 + yoe / 4 - yoe / 100 + doy
  era * 146097 + (doe : Int) - 719468

/-- Left-pad the decimal rendering of a number with zeros to width `w`. -/
def padNum (w n : Nat) : String :=
  let s := toString n
  String.mk (List.replicate (w - s.length) '0') ++ s

/-- moment format YYYY-MM-DD of a day count since the epoch (years after
1970, as all dates this script handles are). -/
def formatDay (day : Int) : String :=
  let c := civilFromDays day
  padNum 4 c.1.toNat ++ "-" ++ padNum 2 c.2.1 ++ "-" ++ padNum 2 c.2.2

/-- moment toISOString of a millisecond timestamp. -/
def toISOString (t : Int) : String :=
  let dayIdx := t / msPerDay
  let r := (t - dayIdx * msPerDay).toNat
  formatDay dayIdx ++ "T" ++ padNum 2 (r / 3600000) ++ ":" ++
    padNum 2 (r % 3600000 / 60000) ++ ":" ++ padNum 2 (r % 60000 / 1000) ++
    "." ++ padNum 3 (r % 1000) ++ "Z"

/-! ## The per-task day window and file name (getAndUploadData, lines 74-84, 124)

`getAndUploadData(date, cb)` sets `yesterday = date.utc().subtract(1, day)`,
queries `date_utc` between `yesterday.startOf(day)` and `yesterday.endOf(day)`
(both rendered with toISOString), and names the output file
`yesterday.format(YYYY-MM-DD) + ".csv"`. -/

/-- The [whereBetween] query window of a task entered with moment value
`date`: the full UTC day preceding `date`, as a closed interval of
millisecond timestamps. -/
def queryWindow (date : Int) : Int × Int :=
  (dayStart (date - msPerDay), dayEnd (date - msPerDay))

/-- The output file name of a task entered with moment value `date`:
yesterday, formatted YYYY-MM-DD, with a .csv suffix. -/
def outputFileName (date : Int) : String :=
  formatDay ((date - msPerDay) / msPerDay) ++ ".csv"

/-! ## The scheduler (lines 154-184)

The build loop pushes one closure per iteration of
`while (date < endDate) { tasks.push(f); date = date.add(1, day) }`.
Every closure captures the one `date` variable, and moment add / subtract /
startOf / endOf all mutate the moment object in place, so at execution time
the tasks share a single moment that the build loop has already advanced to
`date0 + n` days; each task then mutates it further:
subtract one day (line 76), startOf day and endOf day (line 83). -/

/-- Number of iterations of the task-building while loop: how many times
`date` is advanced by one day before reaching `now`. -/
def countTasks (date now : Int) : Nat :=
  if date < now then countTasks (date + msPerDay) now + 1 else 0
termination_by (now - date).toNat
decreasing_by simp only [msPerDay]; omega

/-- Execute `k` tasks in order, threading the single shared moment value:
each task subtracts one day, queries and names that UTC day, and leaves the
moment at endOf(day).  Returns the list of UTC day indices the tasks
queried, in execution order. -/
def runTaskDates : Nat → Int → List Int
  | 0, _ => []
  | k + 1, shared =>
    let y := shared - msPerDay
    y / msPerDay :: runTaskDates k (dayStart y + msPerDay - 1)

/-- The UTC day indices queried by a whole run whose shared date starts at
`date0` with current time `now`: the build loop leaves the shared moment at
`date0 + n` days, then the `n` tasks execute. -/
def scheduledDayIdxs (date0 now : Int) : List Int :=
  runTaskDates (countTasks date0 now) (date0 + (countTasks date0 now : Int) * msPerDay)

/-! ## Records and the transform stream (lines 90-111)

A raw row's `data` object has string-rendered scalar fields plus nested
`date` and optional `coordinates` objects.  JavaScript field values are
modelled by their string rendering (the script moves them around and
stringifies them, never computes with them); an absent field is `none`.
The top-level scalar `utc`, `local`, `latitude`, `longitude` slots are part
of the object shape because `transform` writes them (and an
already-flattened record would carry them). -/

/-- The nested date object of a raw record. -/
structure DateField where
  utc : Option String
  «local» : Option String
deriving DecidableEq

/-- The nested optional coordinates object of a raw record. -/
structure Coordinates where
  latitude : Option String
  longitude : Option String
deriving DecidableEq

/-- A measurement record object (the `chunk.data` value). -/
structure Record where
  location : Option String := none
  city : Option String := none
  country : Option String := none
  parameter : Option String := none
  value : Option String := none
  unit : Option String := none
  attribution : Option String := none
  date : Option DateField := none
  coordinates : Option Coordinates := none
  utc : Option String := none
  «local» : Option String := none
  latitude : Option String := none
  longitude : Option String := none
deriving DecidableEq

/-- A thrown JavaScript error (here: reading a property of undefined). -/
inductive JsError
  | typeError (msg : String)
deriving DecidableEq

/-- The through2 transform callback, value-level view: shallow-copy the
record, set `utc`/`local` from the nested date object and drop it, and if a
coordinates object is present set `latitude`/`longitude` from it and drop
it.  The read `data.date.utc` is unconditional, so a record without a
nested date object makes it throw a TypeError. -/
def transform (chunk : Record) : Except JsError Record :=
  match chunk.date with
  | none => Except.error (JsError.typeError "Cannot read properties of undefined (reading utc)")
  | some d =>
    let data := { chunk with utc := d.utc, «local» := d.«local», date := none }
    Except.ok <|
      match data.coordinates with
      | some c => { data with latitude := c.latitude, longitude := c.longitude,
                              coordinates := none }
      | none => data

/-! ## CSV stringifier (lines 113-121)

csv-stringify is configured with `header: true` and an explicit column
list; it emits the header row, then one row per record, each cell the
column's field rendered with standard CSV quoting and absent values as
empty cells. -/

/-- The configured column list (`options.columns`). -/
def columns : List String :=
  ["location", "city", "country", "utc", "local", "parameter", "value", "unit",
   "latitude", "longitude", "attribution"]

/-- Look up a record field by its column name. -/
def getField (r : Record) : String → Option String
  | "location" => r.location
  | "city" => r.city
  | "country" => r.country
  | "utc" => r.utc
  | "local" => r.«local»
  | "parameter" => r.parameter
  | "value" => r.value
  | "unit" => r.unit
  | "latitude" => r.latitude
  | "longitude" => r.longitude
  | "attribution" => r.attribution
  | _ => none

/-- Whether a cell value must be quoted (contains delimiter, quote or
newline). -/
def needsQuote (s : String) : Bool :=
  s.any fun c => c = ',' || c = '"' || c = '\n' || c = '\r'

/-- Standard CSV escaping of one present value. -/
def csvEscape (s : String) : String :=
  if needsQuote s then "\"" ++ String.replace s "\"" "\"\"" ++ "\"" else s

/-- Render one cell: absent values become empty cells. -/
def renderCell : Option String → String
  | none => ""
  | some s => csvEscape s

/-- The cells of one CSV row for a record, in the configured column order. -/
def rowCells (r : Record) : List String :=
  columns.map fun c => renderCell (getField r c)

/-- One CSV data row. -/
def renderRow (r : Record) : String :=
  String.intercalate "," (rowCells r)

/-- The header row: the configured column names, comma-joined. -/
def headerLine : String :=
  String.intercalate "," columns

/-! ## The per-day pipeline (getAndUploadData, lines 71-152)

The observable steps of one task, in program order.  `createWriteStream`
(line 125) runs unconditionally, so the local file is created in every
task.  On wstream finish the file is uploaded, then `unlinkSync` deletes it,
and only then is the outcome reported to the task callback (lines 126-143).
A store-stream error calls the callback directly (lines 85-87): the file is
never finished, uploaded or deleted.  An exception thrown inside `transform`
has no handler and crashes the pipeline. -/

/-- One observable step of a day task. -/
inductive Event
  | createFile
  | writeLine (s : String)
  | saveFile
  | startUpload
  | deleteFile
  | reportSuccess
  | reportError
  | crash
deriving DecidableEq

/-- Run `transform` over the streamed rows in order, stopping at the first
thrown error: the successfully transformed prefix plus the error, if any. -/
def transformList : List Record → List Record × Option JsError
  | [] => ([], none)
  | r :: rest =>
    match transform r with
    | Except.error e => ([], some e)
    | Except.ok out =>
      let tr := transformList rest
      (out :: tr.1, tr.2)

/-- The observable steps of one `getAndUploadData` task.  `storeRes` is the
store stream outcome (rows, or a stream error) and `uploadOk` the S3
uploader outcome. -/
def taskEvents (storeRes : Except JsError (List Record)) (uploadOk : Bool) :
    List Event :=
  Event.createFile ::
    match storeRes with
    | Except.error _ => [Event.reportError]
    | Except.ok rows =>
      let tr := transformList rows
      List.map Event.writeLine (headerLine :: List.map renderRow tr.1) ++
        match tr.2 with
        | some _ => [Event.crash]
        | none =>
          [Event.saveFile, Event.startUpload, Event.deleteFile,
           if uploadOk then Event.reportSuccess else Event.reportError]

/-- How many times the task deleted its file. -/
def countDeletes : List Event → Nat
  | [] => 0
  | Event.deleteFile :: rest => countDeletes rest + 1
  | _ :: rest => countDeletes rest

/-- No outcome is reported before the file has been deleted. -/
def noReportBeforeDelete : List Event → Bool
  | [] => true
  | Event.reportError :: _ => false
  | Event.reportSuccess :: _ => false
  | Event.deleteFile :: _ => true
  | _ :: rest => noReportBeforeDelete rest

/-- The file is not deleted before the upload attempt has started. -/
def noDeleteBeforeUpload : List Event → Bool
  | [] => true
  | Event.deleteFile :: _ => false
  | Event.startUpload :: _ => true
  | _ :: rest => noDeleteBeforeUpload rest

/-- The first line written to the file, if any. -/
def firstWrittenLine : List Event → Option String
  | [] => none
  | Event.writeLine s :: _ => some s
  | _ :: rest => firstWrittenLine rest

/-! ## Sequential orchestration (async series, lines 176-184)

`series` runs the tasks in order and stops at the first error; the final
callback exits the process with status 1 on error and 0 otherwise.  A run
is summarised by the per-task outcomes its tasks would report. -/

/-- Run tasks in order, stopping at the first failure: the number of tasks
started and the first error, if any. -/
def seriesRun : List (Option JsError) → Nat × Option JsError
  | [] => (0, none)
  | none :: rest => ((seriesRun rest).1 + 1, (seriesRun rest).2)
  | some e :: _ => (1, some e)

/-- The process exit status chosen by the series completion callback. -/
def runExitCode (results : List (Option JsError)) : Nat :=
  match (seriesRun results).2 with
  | some _ => 1
  | none => 0

/-- Identify each scheduled task by the UTC day it queries: given the days
in execution order (`scheduledDayIdxs`) and which days' tasks fail, the
per-task outcomes handed to series, in execution order. -/
def dayOutcomes (days : List Int) (fails : Int → Bool) : List (Option JsError) :=
  days.map fun d => if fails d then some (JsError.typeError "task failed") else none

/-- The days whose tasks series actually starts: execution order runs until
the first failure, so the started days are the execution-order prefix of
length `(seriesRun ..).1`. -/
def startedDays (days : List Int) (fails : Int → Bool) : List Int :=
  days.take (seriesRun (dayOutcomes days fails)).1

/-- The process exit status of a run whose scheduled days are `days` and
whose per-day outcomes are given by `fails`. -/
def runExitOfDays (days : List Int) (fails : Int → Bool) : Nat :=
  runExitCode (dayOutcomes days fails)

/-! ## Watchdog (lines 25-29)

One `setTimeout` armed at process start for `PROCESS_TIMEOUT` milliseconds
(default 10 * 60 * 1000); its callback exits the process with status 1.
The run is summarised by when (and with what status) the series callback
would exit: whichever of the two exits happens first wins. -/

/-- The default watchdog duration, 10 minutes in milliseconds. -/
def defaultProcessTimeout : Nat := 10 * 60 * 1000

/-- The armed watchdog duration: the PROCESS_TIMEOUT override if set, else
the default. -/
def processTimeoutOf (env : Option Nat) : Nat :=
  env.getD defaultProcessTimeout

/-- The final process exit status: if the multi-day run reaches its
terminal exit (at time `t` with status `code`) strictly before the watchdog
fires, that status; otherwise the watchdog callback exits with status 1.
`runDone = none` models a run that never reaches a terminal state. -/
def finalExitCode (runDone : Option (Nat × Nat)) (env : Option Nat) : Nat :=
  match runDone with
  | some tc => if tc.1 < processTimeoutOf env then tc.2 else 1
  | none => 1

/-! ## Heap-level view of the transform (lines 90-103)

To state what `transform` does to its *input object*, records are modelled
as references into an explicit heap.  `Object.assign({}, chunk.data)` is a
shallow copy: the fresh object shares the nested date / coordinates
references.  The source only ever writes fields of the fresh copy, so the
step allocates one new record object and leaves every existing object
untouched. -/

/-- A heap-resident date object. -/
structure DateObj where
  utc : Option String
  «local» : Option String
deriving DecidableEq

/-- A heap-resident coordinates object. -/
structure CoordObj where
  latitude : Option String
  longitude : Option String
deriving DecidableEq

/-- A heap-resident record object; `date` and `coordinates` hold references
(indices) into the heap rather than inline values. -/
structure RecObj where
  location : Option String := none
  city : Option String := none
  country : Option String := none
  parameter : Option String := none
  value : Option String := none
  unit : Option String := none
  attribution : Option String := none
  date : Option Nat := none
  coordinates : Option Nat := none
  utc : Option String := none
  «local» : Option String := none
  latitude : Option String := none
  longitude : Option String := none
deriving DecidableEq

/-- The object heap: record, date and coordinates objects addressed by
index. -/
structure Heap where
  recObjs : List RecObj
  dateObjs : List DateObj
  coordObjs : List CoordObj
deriving DecidableEq

/-- Heap-level `transform` on the record object at reference `r`: shallow
copy, flatten date and coordinates into the copy, allocate the copy as a
fresh object, and return its reference.  Reading a missing object throws.
No existing heap object is written. -/
def transformStep (h : Heap) (r : Nat) : Heap × Except JsError Nat :=
  match h.recObjs.get? r with
  | none => (h, Except.error (JsError.typeError "Cannot read properties of undefined (reading date)"))
  | some obj =>
    match obj.date with
    | none => (h, Except.error (JsError.typeError "Cannot read properties of undefined (reading utc)"))
    | some dref =>
      match h.dateObjs.get? dref with
      | none => (h, Except.error (JsError.typeError "Cannot read properties of undefined (reading utc)"))
      | some dobj =>
        let data := { obj with utc := dobj.utc, «local» := dobj.«local», date := none }
        match data.coordinates with
        | some cref =>
          match h.coordObjs.get? cref with
          | none => (h, Except.error (JsError.typeError "Cannot read properties of undefined (reading latitude)"))
          | some cobj =>
            let data2 := { data with latitude := cobj.latitude, longitude := cobj.longitude, coordinates := none }
            ({ h with recObjs := h.recObjs ++ [data2] }, Except.ok h.recObjs.length)
        | none =>
          ({ h with recObjs := h.recObjs ++ [data] }, Except.ok h.recObjs.length)

/-! ## Helper lemmas -/

/-- Log lines written by the stringifier are not delete events. -/
theorem countDeletes_append (l₁ l₂ : List Event) :
    countDeletes (l₁ ++ l₂) = countDeletes l₁ + countDeletes l₂ := by
  induction l₁ with
  | nil => simp [countDeletes]
  | cons e rest ih =>
    cases e
    all_goals simp [countDeletes, ih]
    all_goals try omega

/-- Written CSV lines contribute no delete events. -/
theorem countDeletes_map_writeLine (l : List String) :
    countDeletes (l.map Event.writeLine) = 0 := by
  induction l with
  | nil => rfl
  | cons s rest ih => simpa [countDeletes] using ih

/-- Written CSV lines are neither deletes nor upload starts. -/
theorem noDeleteBeforeUpload_map_writeLine (l : List String) (t : List Event) :
    noDeleteBeforeUpload (l.map Event.writeLine ++ t) = noDeleteBeforeUpload t := by
  induction l with
  | nil => rfl
  | cons s rest ih => simpa [noDeleteBeforeUpload] using ih

/-- Written CSV lines are neither deletes nor reports. -/
theorem noReportBeforeDelete_map_writeLine (l : List String) (t : List Event) :
    noReportBeforeDelete (l.map Event.writeLine ++ t) = noReportBeforeDelete t := by
  induction l with
  | nil => rfl
  | cons s rest ih => simpa [noReportBeforeDelete] using ih

/-- The saveFile event is never among written CSV lines. -/
theorem saveFile_not_mem_map_writeLine (l : List String) :
    Event.saveFile ∉ l.map Event.writeLine := by
  simp

/-- Creating the file is not a delete event. -/
theorem countDeletes_cons_createFile (l : List Event) :
    countDeletes (Event.createFile :: l) = countDeletes l := rfl

/-- Creating the file is neither a delete nor an upload start. -/
theorem noDeleteBeforeUpload_cons_createFile (l : List Event) :
    noDeleteBeforeUpload (Event.createFile :: l) = noDeleteBeforeUpload l := rfl

/-- Creating the file is neither a delete nor a report. -/
theorem noReportBeforeDelete_cons_createFile (l : List Event) :
    noReportBeforeDelete (Event.createFile :: l) = noReportBeforeDelete l := rfl

/-- If the first failing task is at position `n` (everything before it
succeeded), series starts exactly `n + 1` tasks and surfaces that error. -/
theorem seriesRun_first_error (rs : List (Option JsError)) (n : Nat) (e : JsError)
    (h : rs.get? n = some (some e)) (hall : ∀ m, m < n → rs.get? m = some none) :
    seriesRun rs = (n + 1, some e) := by
  induction rs generalizing n with
  | nil => simp at h
  | cons r rest ih =>
    cases n with
    | zero =>
      simp only [List.get?] at h
      injection h with h
      subst h
      rfl
    | succ m =>
      have h0 := hall 0 (Nat.succ_pos m)
      simp only [List.get?] at h0
      injection h0 with h0
      subst h0
      have hrec := ih m h (fun k hk => hall (k + 1) (Nat.succ_lt_succ hk))
      simp [seriesRun, hrec]

/-- If every task succeeds, series starts them all and surfaces no error. -/
theorem seriesRun_all_ok (rs : List (Option JsError)) (h : ∀ r ∈ rs, r = none) :
    seriesRun rs = (rs.length, none) := by
  induction rs with
  | nil => rfl
  | cons r rest ih =>
    have hr : r = none := h r (List.mem_cons_self r rest)
    subst hr
    have hrec := ih fun x hx => h x (List.mem_cons_of_mem _ hx)
    simp [seriesRun, hrec]

/-- Closed form of task execution: the k-th executed task (0-based) queries
the day exactly k days below the first executed one. -/
theorem runTaskDates_closed (k : Nat) (shared : Int) :
    runTaskDates k shared =
      (List.range k).map (fun i : Nat => (shared - msPerDay) / msPerDay - (i : Int)) := by
  induction k generalizing shared with
  | zero => rfl
  | succ n ih =>
    have hq : ((dayStart (shared - msPerDay) + msPerDay - 1) - msPerDay) / msPerDay
        = (shared - msPerDay) / msPerDay - 1 := by
      simp only [dayStart, msPerDay]
      omega
    simp only [runTaskDates]
    rw [ih, hq, List.range_succ_eq_map, List.map_cons, List.map_map]
    refine congrArg₂ _ (by push_cast; ring) ?_
    refine List.map_congr_left fun i _ => ?_
    simp only [Function.comp_apply, Nat.succ_eq_add_one]
    push_cast
    ring

/-- The executed days are strictly descending. -/
theorem scheduledDayIdxs_sorted (date0 now : Int) :
    (scheduledDayIdxs date0 now).Pairwise (fun a b => b < a) := by
  unfold scheduledDayIdxs
  rw [runTaskDates_closed]
  rw [List.pairwise_map]
  refine (List.pairwise_lt_range _).imp fun hij => ?_
  simp only [msPerDay]
  omega

/-- A failing day task is the last started task. -/
theorem startedDays_cons_fail (d : Int) (rest : List Int) (fails : Int → Bool)
    (h : fails d = true) : startedDays (d :: rest) fails = [d] := by
  simp [startedDays, dayOutcomes, seriesRun, h]

/-- A succeeding day task starts and execution moves to the remaining days. -/
theorem startedDays_cons_ok (d : Int) (rest : List Int) (fails : Int → Bool)
    (h : fails d = false) :
    startedDays (d :: rest) fails = d :: startedDays rest fails := by
  simp [startedDays, dayOutcomes, seriesRun, h]

/-- A failing head task makes the run exit 1. -/
theorem runExitOfDays_cons_fail (d : Int) (rest : List Int) (fails : Int → Bool)
    (h : fails d = true) : runExitOfDays (d :: rest) fails = 1 := by
  simp [runExitOfDays, runExitCode, dayOutcomes, seriesRun, h]

/-- A succeeding head task leaves the exit status to the remaining days. -/
theorem runExitOfDays_cons_ok (d : Int) (rest : List Int) (fails : Int → Bool)
    (h : fails d = false) :
    runExitOfDays (d :: rest) fails = runExitOfDays rest fails := by
  simp [runExitOfDays, runExitCode, dayOutcomes, seriesRun, h]

/-- Over a strictly descending day list, if day N fails and no larger day
does (making N the first failure in execution order), then N and every
larger day started, no smaller day ever starts, and the run exits 1. -/
theorem startedDays_first_fail (days : List Int) (fails : Int → Bool)
    (hdesc : days.Pairwise (fun a b => b < a)) (N : Int) (hN : N ∈ days)
    (hfail : fails N = true)
    (hbig : ∀ d ∈ days, N < d → fails d = false) :
    N ∈ startedDays days fails ∧
    (∀ d ∈ days, N < d → d ∈ startedDays days fails) ∧
    (∀ d ∈ days, d < N → d ∉ startedDays days fails) ∧
    runExitOfDays days fails = 1 := by
  revert hdesc hN hbig
  induction days with
  | nil => intro _ hN _; cases hN
  | cons d rest ih =>
    intro hdesc hN hbig
    obtain ⟨hd, hrest⟩ := List.pairwise_cons.mp hdesc
    rcases List.mem_cons.mp hN with rfl | hNrest
    · rw [startedDays_cons_fail _ _ _ hfail, runExitOfDays_cons_fail _ _ _ hfail]
      refine ⟨List.mem_cons_self _ _, ?_, ?_, rfl⟩
      · intro e he hlt
        rcases List.mem_cons.mp he with rfl | herest
        · exact absurd hlt (lt_irrefl _)
        · exact absurd hlt (not_lt.mpr (hd e herest).le)
      · intro e _ hlt hmem
        rcases List.mem_cons.mp hmem with rfl | hmem2
        · exact absurd hlt (lt_irrefl _)
        · cases hmem2
    · have hdN : N < d := hd N hNrest
      have hdok : fails d = false := hbig d (List.mem_cons_self d rest) hdN
      rw [startedDays_cons_ok _ _ _ hdok, runExitOfDays_cons_ok _ _ _ hdok]
      obtain ⟨ih1, ih2, ih3, ih4⟩ :=
        ih hrest hNrest fun e he hlt => hbig e (List.mem_cons_of_mem _ he) hlt
      refine ⟨List.mem_cons_of_mem _ ih1, ?_, ?_, ih4⟩
      · intro e he hlt
        rcases List.mem_cons.mp he with rfl | herest
        · exact List.mem_cons_self _ _
        · exact List.mem_cons_of_mem _ (ih2 e herest hlt)
      · intro e he hlt hmem
        rcases List.mem_cons.mp hmem with rfl | hmem2
        · exact absurd hlt (not_lt.mpr hdN.le)
        · rcases List.mem_cons.mp he with rfl | herest
          · exact absurd hlt (not_lt.mpr hdN.le)
          · exact ih3 e herest hlt hmem2

/-- If no day task fails, every scheduled day starts and the run exits 0. -/
theorem startedDays_all_none (days : List Int) (fails : Int → Bool)
    (h : ∀ d ∈ days, fails d = false) :
    startedDays days fails = days ∧ runExitOfDays days fails = 0 := by
  revert h
  induction days with
  | nil => intro _; exact ⟨rfl, rfl⟩
  | cons d rest ih =>
    intro h
    have hd : fails d = false := h d (List.mem_cons_self d rest)
    obtain ⟨h1, h2⟩ := ih fun e he => h e (List.mem_cons_of_mem _ he)
    rw [startedDays_cons_ok _ _ _ hd, runExitOfDays_cons_ok _ _ _ hd, h1]
    exact ⟨rfl, h2⟩

/-- The row cells of a record, column by column. -/
theorem rowCells_eq (r : Record) :
    rowCells r = [renderCell r.location, renderCell r.city, renderCell r.country,
      renderCell r.utc, renderCell r.«local», renderCell r.parameter,
      renderCell r.value, renderCell r.unit, renderCell r.latitude,
      renderCell r.longitude, renderCell r.attribution] := rfl

/-! ## Claim theorems -/

/-- C1 (code bug): executing the run whose start date is 2024-01-01 with
current time 2024-01-03T00:00:00Z creates two tasks, but they query and
name days 2024-01-02 and then 2024-01-01 — strictly DESCENDING, because
every task closure shares the single moment object that the build loop and
the previous tasks have already mutated.  The claimed ascending order
(k-th task on start + k - 1) fails: the first task runs on start + 1. -/
theorem scheduler_runs_days_descending :
    scheduledDayIdxs (19723 * 86400000) (19725 * 86400000) = [19724, 19723] ∧
    formatDay 19724 = "2024-01-02" ∧ formatDay 19723 = "2024-01-01" ∧
    daysFromCivil 2024 1 1 = 19723 := by
  have e1 : (19723 * 86400000 + msPerDay : Int) = 19724 * 86400000 := by
    norm_num [msPerDay]
  have e2 : (19724 * 86400000 + msPerDay : Int) = 19725 * 86400000 := by
    norm_num [msPerDay]
  have h : countTasks (19723 * 86400000) (19725 * 86400000) = 2 := by
    rw [countTasks, if_pos (show (19723 * 86400000 : Int) < 19725 * 86400000 by norm_num), e1,
        countTasks, if_pos (show (19724 * 86400000 : Int) < 19725 * 86400000 by norm_num), e2,
        countTasks, if_neg (show ¬((19725 * 86400000 : Int) < 19725 * 86400000) by norm_num)]
  refine ⟨?_, by decide, by decide, by decide⟩
  simp only [scheduledDayIdxs, h]
  decide

/-- C2 counterexample: a day task whose store query matches zero rows does
create a local file and does start an upload, contradicting the claimed
short-circuit with no file and no upload. -/
theorem zero_record_day_cex :
    Event.createFile ∈ taskEvents (Except.ok []) true ∧
    Event.startUpload ∈ taskEvents (Except.ok []) true := by decide

/-- C2 amended: a zero-record day is still not an error — the task creates
the file, writes only the header, saves it, uploads it, deletes it, and
reports success; but there is no zero-record short-circuit. -/
theorem zero_record_day_behavior :
    taskEvents (Except.ok []) true =
      [Event.createFile, Event.writeLine headerLine, Event.saveFile,
       Event.startUpload, Event.deleteFile, Event.reportSuccess] := rfl

/-- A record that is already flattened: scalar utc, local, latitude and
longitude, no nested date or coordinates objects. -/
def flatRecordExample : Record :=
  { location := some "L", city := some "C", country := some "US",
    parameter := some "pm25", value := some "12", unit := some "ug/m3",
    attribution := some "src", utc := some "2024-01-02T01:00:00Z",
    «local» := some "2024-01-01T20:00:00-05:00",
    latitude := some "40.1", longitude := some "-75.2" }

/-- C3 counterexample: applying the transform to an already-flattened
record does not return it unchanged — it throws a TypeError, because the
read of date.utc is unconditional and the nested date object is absent. -/
theorem transform_not_idempotent_cex :
    flatRecordExample.date = none ∧ flatRecordExample.coordinates = none ∧
    transform flatRecordExample =
      Except.error (JsError.typeError "Cannot read properties of undefined (reading utc)") :=
  ⟨rfl, rfl, rfl⟩

/-- C3 amended: on every record without a nested date object — in
particular every already-flattened record — the transform throws a
TypeError instead of returning the record unchanged. -/
theorem transform_throws_on_flattened_input (r : Record) (h : r.date = none) :
    transform r =
      Except.error (JsError.typeError "Cannot read properties of undefined (reading utc)") := by
  unfold transform
  rw [h]

/-- C3 amended, witness at a concrete flattened record. -/
theorem transform_throws_on_flattened_input_witness :
    flatRecordExample.date = none ∧
    transform flatRecordExample =
      Except.error (JsError.typeError "Cannot read properties of undefined (reading utc)") :=
  ⟨rfl, transform_throws_on_flattened_input flatRecordExample rfl⟩

/-- C4: a task entered with any moment value on UTC day 2024-01-03 queries
exactly the window from 2024-01-02T00:00:00.000Z to 2024-01-02T23:59:59.999Z
— the closed span of UTC millisecond instants of the preceding calendar day
2024-01-02, as the final equivalence states — and names its output file
2024-01-02.csv. -/
theorem query_window_and_file_for_2024_01_03 (m : Int)
    (h : m / msPerDay = daysFromCivil 2024 1 3) :
    queryWindow m = (1704153600000, 1704239999999) ∧
    toISOString (queryWindow m).1 = "2024-01-02T00:00:00.000Z" ∧
    toISOString (queryWindow m).2 = "2024-01-02T23:59:59.999Z" ∧
    outputFileName m = "2024-01-02.csv" ∧
    (∀ t : Int, ((queryWindow m).1 ≤ t ∧ t ≤ (queryWindow m).2) ↔
      t / msPerDay = daysFromCivil 2024 1 2) := by
  have h3 : daysFromCivil 2024 1 3 = 19725 := by decide
  have hm : m / (86400000 : Int) = 19725 := by
    have := h.trans h3
    simpa only [msPerDay] using this
  have hy : (m - 86400000) / (86400000 : Int) = 19724 := by omega
  have hqw : queryWindow m = (1704153600000, 1704239999999) := by
    simp only [queryWindow, dayStart, dayEnd, msPerDay, hy]
    norm_num
  have hq1 : (queryWindow m).1 = 1704153600000 := by rw [hqw]
  have hq2 : (queryWindow m).2 = 1704239999999 := by rw [hqw]
  refine ⟨hqw, ?_, ?_, ?_, ?_⟩
  · rw [hq1]; decide
  · rw [hq2]; decide
  · simp only [outputFileName, msPerDay, hy]
    decide
  · intro t
    have h2 : daysFromCivil 2024 1 2 = 19724 := by decide
    rw [hq1, hq2, h2]
    simp only [msPerDay]
    omega

/-- C4 witness at the concrete instant 2024-01-03T00:00:05.000Z. -/
theorem query_window_and_file_for_2024_01_03_witness :
    (1704240005000 : Int) / msPerDay = daysFromCivil 2024 1 3 ∧
    (queryWindow 1704240005000 = (1704153600000, 1704239999999) ∧
     toISOString (queryWindow 1704240005000).1 = "2024-01-02T00:00:00.000Z" ∧
     toISOString (queryWindow 1704240005000).2 = "2024-01-02T23:59:59.999Z" ∧
     outputFileName 1704240005000 = "2024-01-02.csv" ∧
     (∀ t : Int, ((queryWindow 1704240005000).1 ≤ t ∧ t ≤ (queryWindow 1704240005000).2) ↔
       t / msPerDay = daysFromCivil 2024 1 2)) :=
  ⟨by decide, query_window_and_file_for_2024_01_03 1704240005000 (by decide)⟩

/-- C5 counterexample: a task whose store stream errors has already created
its local file, but no upload is ever attempted and the file is never
deleted — so it is not the case that every task that created a file deletes
it exactly once. -/
theorem store_error_leaves_file_undeleted_cex :
    Event.createFile ∈ taskEvents (Except.error (JsError.typeError "connection lost")) true ∧
    countDeletes (taskEvents (Except.error (JsError.typeError "connection lost")) true) = 0 ∧
    Event.startUpload ∉ taskEvents (Except.error (JsError.typeError "connection lost")) true := by
  decide

/-- C5 amended: for every task whose file actually finished writing (the
FileSink completion event fired), the file is deleted exactly once, the
deletion happens only after the upload attempt started, and no outcome
(success or failure) is reported before the deletion — for both upload
outcomes.  Tasks that fail before file completion never delete the file. -/
theorem file_saved_implies_single_cleanup (storeRes : Except JsError (List Record))
    (uploadOk : Bool) (h : Event.saveFile ∈ taskEvents storeRes uploadOk) :
    countDeletes (taskEvents storeRes uploadOk) = 1 ∧
    noDeleteBeforeUpload (taskEvents storeRes uploadOk) = true ∧
    noReportBeforeDelete (taskEvents storeRes uploadOk) = true := by
  rcases storeRes with e | rows
  · simp [taskEvents] at h
  · rcases htr : (transformList rows).2 with _ | e
    · refine ⟨?_, ?_, ?_⟩ <;> simp only [taskEvents, htr]
      · rw [countDeletes_cons_createFile, countDeletes_append,
            countDeletes_map_writeLine]
        cases uploadOk <;> rfl
      · rw [noDeleteBeforeUpload_cons_createFile, noDeleteBeforeUpload_map_writeLine]
        rfl
      · rw [noReportBeforeDelete_cons_createFile, noReportBeforeDelete_map_writeLine]
        rfl
    · exfalso
      simp [taskEvents, htr] at h

/-- C5 amended, witness: the zero-record task with a FAILING upload still
deletes its file exactly once, after the upload started and before the
failure is reported. -/
theorem file_saved_implies_single_cleanup_witness :
    Event.saveFile ∈ taskEvents (Except.ok []) false ∧
    (countDeletes (taskEvents (Except.ok []) false) = 1 ∧
     noDeleteBeforeUpload (taskEvents (Except.ok []) false) = true ∧
     noReportBeforeDelete (taskEvents (Except.ok []) false) = true) :=
  ⟨by decide, file_saved_implies_single_cleanup (Except.ok []) false (by decide)⟩

/-- C6 counterexample: start day 0, current time two days later, and only
the task for day N = 0 failing.  The scheduled days execute as [1, 0], so
by the time day 0 fails, the task for day N + 1 = 1 has ALREADY started
(both started days are listed), contradicting the claim that no task for
day N + 1 or later is ever started; the run does exit 1. -/
theorem day_level_fail_fast_cex :
    scheduledDayIdxs 0 (2 * 86400000) = [1, 0] ∧
    (1 : Int) ∈ startedDays (scheduledDayIdxs 0 (2 * 86400000)) (fun d => d == 0) ∧
    startedDays (scheduledDayIdxs 0 (2 * 86400000)) (fun d => d == 0) = [1, 0] ∧
    runExitOfDays (scheduledDayIdxs 0 (2 * 86400000)) (fun d => d == 0) = 1 := by
  have e1 : ((0 : Int) + msPerDay) = 86400000 := by norm_num [msPerDay]
  have e2 : ((86400000 : Int) + msPerDay) = 2 * 86400000 := by norm_num [msPerDay]
  have h : countTasks 0 (2 * 86400000) = 2 := by
    rw [countTasks, if_pos (show (0 : Int) < 2 * 86400000 by norm_num), e1,
        countTasks, if_pos (show (86400000 : Int) < 2 * 86400000 by norm_num), e2,
        countTasks, if_neg (show ¬((2 * 86400000 : Int) < 2 * 86400000) by norm_num)]
  have hdays : scheduledDayIdxs 0 (2 * 86400000) = [1, 0] := by
    simp only [scheduledDayIdxs, h]
    decide
  rw [hdays]
  refine ⟨rfl, ?_, ?_, ?_⟩ <;> decide

/-- C6 amended: tasks run strictly in execution order with fail-fast, but
execution order is DESCENDING in days (the C1 bug).  So when the task for
day N fails and no later (larger) day's task does — making it the first
failure in execution order — the tasks for day N + 1 and every later
scheduled day have all already started, it is the tasks for the EARLIER
days that are never started, and the run exits with status 1; if every
task completes with success or no-data, all scheduled days run and the run
exits with status 0. -/
theorem day_level_fail_fast_and_exit (date0 now : Int) (fails : Int → Bool) :
    (∀ N, N ∈ scheduledDayIdxs date0 now → fails N = true →
      (∀ d ∈ scheduledDayIdxs date0 now, N < d → fails d = false) →
      N ∈ startedDays (scheduledDayIdxs date0 now) fails ∧
      (∀ d ∈ scheduledDayIdxs date0 now, N < d →
        d ∈ startedDays (scheduledDayIdxs date0 now) fails) ∧
      (∀ d ∈ scheduledDayIdxs date0 now, d < N →
        d ∉ startedDays (scheduledDayIdxs date0 now) fails) ∧
      runExitOfDays (scheduledDayIdxs date0 now) fails = 1) ∧
    ((∀ d ∈ scheduledDayIdxs date0 now, fails d = false) →
      startedDays (scheduledDayIdxs date0 now) fails = scheduledDayIdxs date0 now ∧
      runExitOfDays (scheduledDayIdxs date0 now) fails = 0) := by
  constructor
  · intro N hN hfail hbig
    exact startedDays_first_fail _ fails (scheduledDayIdxs_sorted date0 now) N hN hfail hbig
  · intro h
    exact startedDays_all_none _ fails h

/-- C6 amended, witness: the two-day run of the counterexample input, with
day 0 the (first and only) failing day — day 1 already started, no day
below 0 starts, exit 1; and the same run with no failures starts both days
and exits 0. -/
theorem day_level_fail_fast_and_exit_witness :
    ((0 : Int) ∈ startedDays (scheduledDayIdxs 0 (2 * 86400000)) (fun d => d == 0) ∧
     (∀ d ∈ scheduledDayIdxs 0 (2 * 86400000), (0 : Int) < d →
       d ∈ startedDays (scheduledDayIdxs 0 (2 * 86400000)) (fun d => d == 0)) ∧
     (∀ d ∈ scheduledDayIdxs 0 (2 * 86400000), d < (0 : Int) →
       d ∉ startedDays (scheduledDayIdxs 0 (2 * 86400000)) (fun d => d == 0)) ∧
     runExitOfDays (scheduledDayIdxs 0 (2 * 86400000)) (fun d => d == 0) = 1) ∧
    (startedDays (scheduledDayIdxs 0 (2 * 86400000)) (fun _ => false) =
       scheduledDayIdxs 0 (2 * 86400000) ∧
     runExitOfDays (scheduledDayIdxs 0 (2 * 86400000)) (fun _ => false) = 0) := by
  have e1 : ((0 : Int) + msPerDay) = 86400000 := by norm_num [msPerDay]
  have e2 : ((86400000 : Int) + msPerDay) = 2 * 86400000 := by norm_num [msPerDay]
  have h : countTasks 0 (2 * 86400000) = 2 := by
    rw [countTasks, if_pos (show (0 : Int) < 2 * 86400000 by norm_num), e1,
        countTasks, if_pos (show (86400000 : Int) < 2 * 86400000 by norm_num), e2,
        countTasks, if_neg (show ¬((2 * 86400000 : Int) < 2 * 86400000) by norm_num)]
  have hdays : scheduledDayIdxs 0 (2 * 86400000) = [1, 0] := by
    simp only [scheduledDayIdxs, h]
    decide
  constructor
  · exact (day_level_fail_fast_and_exit 0 (2 * 86400000) (fun d => d == 0)).1 0
      (by rw [hdays]; decide) (by decide)
      (by rw [hdays]; decide)
  · exact (day_level_fail_fast_and_exit 0 (2 * 86400000) (fun _ => false)).2
      (by rw [hdays]; decide)

/-- C7: a raw record that carries a nested date object but no coordinates
object (and, being raw, no top-level latitude or longitude) transforms
without error, and its CSV row has empty cells in the latitude and
longitude columns (positions 8 and 9 of the fixed column order). -/
theorem missing_coordinates_yields_empty_cells (r : Record) (d : DateField)
    (hd : r.date = some d) (hc : r.coordinates = none)
    (hla : r.latitude = none) (hlo : r.longitude = none) :
    ∃ out, transform r = Except.ok out ∧ out.latitude = none ∧
      out.longitude = none ∧ (rowCells out).get? 8 = some "" ∧
      (rowCells out).get? 9 = some "" := by
  rcases r with ⟨loc, city, country, param, val, unt, attr, dt, coords, u, lcl, lat, lon⟩
  simp only at hd hc hla hlo
  subst hd
  subst hc
  subst hla
  subst hlo
  exact ⟨_, rfl, rfl, rfl, rfl, rfl⟩

/-- C7 witness at a concrete coordinate-free record. -/
theorem missing_coordinates_yields_empty_cells_witness :
    ∃ out,
      transform { location := some "L",
                  date := some { utc := some "u", «local» := some "l" } } =
        Except.ok out ∧
      out.latitude = none ∧ out.longitude = none ∧
      (rowCells out).get? 8 = some "" ∧ (rowCells out).get? 9 = some "" :=
  missing_coordinates_yields_empty_cells
    { location := some "L", date := some { utc := some "u", «local» := some "l" } }
    { utc := some "u", «local» := some "l" } rfl rfl rfl rfl

/-- C8: whatever rows a day streams and however its upload goes, the first
line written to the CSV file is always exactly the fixed header. -/
theorem csv_first_line_is_header (rows : List Record) (uploadOk : Bool) :
    firstWrittenLine (taskEvents (Except.ok rows) uploadOk) = some headerLine ∧
    headerLine =
      "location,city,country,utc,local,parameter,value,unit,latitude,longitude,attribution" := by
  constructor
  · rcases htr : (transformList rows).2 with _ | e <;>
      simp [taskEvents, htr, firstWrittenLine]
  · rfl

/-- C9: the watchdog timer is armed once with the configured duration
(the PROCESS_TIMEOUT override if present, else 10 minutes), and whenever
the multi-day run has not reached its terminal state strictly before that
duration elapses — including never reaching it at all, with a task still in
flight — the process exits with failure status 1. -/
theorem watchdog_forces_failure_exit (env : Option Nat) (runDone : Option (Nat × Nat))
    (h : ∀ t c, runDone = some (t, c) → processTimeoutOf env ≤ t) :
    finalExitCode runDone env = 1 ∧ processTimeoutOf none = 600000 ∧
    (∀ d, processTimeoutOf (some d) = d) := by
  refine ⟨?_, rfl, fun d => rfl⟩
  cases runDone with
  | none => rfl
  | some tc =>
    have hle := h tc.1 tc.2 rfl
    simp [finalExitCode, Nat.not_lt.mpr hle]

/-- C9 witness: a run whose terminal exit would only come at the default
600000 ms mark (with exit status 0) is beaten by the watchdog and the
process exits 1. -/
theorem watchdog_forces_failure_exit_witness :
    finalExitCode (some (600000, 0)) none = 1 ∧ processTimeoutOf none = 600000 ∧
    (∀ d, processTimeoutOf (some d) = d) :=
  watchdog_forces_failure_exit none (some (600000, 0))
    (by
      intro t c hh
      simp only [Option.some.injEq, Prod.mk.injEq] at hh
      obtain ⟨h1, h2⟩ := hh
      subst h1
      decide)

/-- C10: the heap-level transform never mutates existing objects — the
original record object still holds all its top-level fields, and every
nested date and coordinates object is unchanged; the transform only
allocates a fresh flattened copy. -/
theorem transform_does_not_mutate_input (h : Heap) (r : Nat)
    (hr : r < h.recObjs.length) :
    (transformStep h r).1.recObjs[r]? = h.recObjs[r]? ∧
    (transformStep h r).1.dateObjs = h.dateObjs ∧
    (transformStep h r).1.coordObjs = h.coordObjs := by
  unfold transformStep
  repeat' split
  all_goals dsimp only
  repeat' split
  all_goals
    first
      | exact ⟨rfl, rfl, rfl⟩
      | exact ⟨List.getElem?_append_left hr, rfl, rfl⟩

/-- A concrete one-record heap with nested date and coordinates objects. -/
def heapExample : Heap :=
  { recObjs := [{ location := some "L", date := some 0, coordinates := some 0 }],
    dateObjs := [{ utc := some "u", «local» := some "l" }],
    coordObjs := [{ latitude := some "40.1", longitude := some "-75.2" }] }

/-- C10 witness at the concrete heap. -/
theorem transform_does_not_mutate_input_witness :
    0 < heapExample.recObjs.length ∧
    ((transformStep heapExample 0).1.recObjs[0]? = heapExample.recObjs[0]? ∧
     (transformStep heapExample 0).1.dateObjs = heapExample.dateObjs ∧
     (transformStep heapExample 0).1.coordObjs = heapExample.coordObjs) :=
  ⟨by decide, transform_does_not_mutate_input heapExample 0 (by decide)⟩

end Updater
